import Mathlib

/-!
Verification of the ESP32 RFID door-lock firmware
(`emlockmultithreadv1.ino`, v2.0 architectural rewrite).

This file gives a shallow embedding of the firmware's pure logic:

* `Validation` — identifier/list/duration validation (lines 177–219 of the
  source);
* `StorageManager` — the three NVS-backed registry sets, modelled as
  association lists keyed by UID (lines 224–392); the NVS mutex is assumed
  available (acquisition failure is an orthogonal fail-closed path);
* `CloudService` — the five remote-command handlers (lines 491–729); the
  Firebase transport is modelled by the parsed command value, a `removeOk`
  flag giving the outcome of the command-node `deleteNode` call, an outward
  mirror keyed by `(list, uid)`, and the list of `commandErrors` records
  emitted; timestamps are out of scope;
* `AccessController` — relay cooldown state machine, exit-sensor
  debounce/latch state machine, and the RFID scan decision procedure
  (lines 759–953); `millis()` is modelled as a natural number with 32-bit
  wrap-around subtraction `usub`.

Machine `unsigned long` (32-bit on ESP32) subtraction is modelled by
`usub a b = (2^32 + a - b) % 2^32`, which agrees with the hardware for all
`a b < 2^32`.
-/

namespace Emlock

/-- 32-bit wrap-around subtraction: the value of `a - b` on `uint32_t`
operands, for `a b < 2 ^ 32`. -/
def usub (a b : Nat) : Nat := (2 ^ 32 + a - b) % 2 ^ 32

theorem usub_eq_sub {a b : Nat} (hb : b ≤ a) (ha : a < 2 ^ 32) :
    usub a b = a - b := by
  unfold usub
  omega

-- ==================== TIMING CONSTANTS ====================

/-- `EXIT_DEBOUNCE_MS = 500` (source line 133). -/
def EXIT_DEBOUNCE_MS : Nat := 500

/-- `UNLOCK_COOLDOWN_MS = 3000` (source line 134). -/
def UNLOCK_COOLDOWN_MS : Nat := 3000

/-- `RELAY_DEFAULT_DURATION = 3000` (source line 135). -/
def RELAY_DEFAULT_DURATION : Nat := 3000

-- ==================== INPUT VALIDATION MODULE ====================

namespace Validation

def MIN_UID_LENGTH : Nat := 8

def MAX_UID_LENGTH : Nat := 20

def MAX_NAME_LENGTH : Nat := 45

/-- C `isxdigit`: decimal digits and hex letters of either case. -/
def isxdigit (c : Char) : Bool :=
  (c ≥ '0' && c ≤ '9') || (c ≥ 'a' && c ≤ 'f') || (c ≥ 'A' && c ≤ 'F')

/-- `Validation::isValidUID` (source lines 183–198): length within
`[MIN_UID_LENGTH, MAX_UID_LENGTH]`, even, all characters hex digits. -/
def isValidUID (uid : String) : Bool :=
  if uid.length < MIN_UID_LENGTH || uid.length > MAX_UID_LENGTH then false
  else if uid.length % 2 != 0 then false
  else uid.data.all isxdigit

/-- C `isspace`: the whitespace characters stripped by Arduino
`String::trim`. -/
def isSpaceChar (c : Char) : Bool :=
  (c == ' ') || (c == '\t') || (c == '\n') || (c == '\x0b') || (c == '\x0c') || (c == '\r')

/-- Arduino `String::trim`: drop `isspace` characters from both ends. -/
def trimStr (s : String) : String :=
  String.mk (((s.data.dropWhile isSpaceChar).reverse.dropWhile isSpaceChar).reverse)

/-- `Validation::sanitizeName` (source lines 200–210): trim whitespace,
truncate to `MAX_NAME_LENGTH` (`substring(0, 45)`), empty becomes
`"Unknown"`. -/
def sanitizeName (name : String) : String :=
  let t := trimStr name
  let t2 := if t.length > MAX_NAME_LENGTH then String.mk (t.data.take MAX_NAME_LENGTH) else t
  if t2.length = 0 then "Unknown" else t2

/-- `Validation::isValidList` (source lines 212–214). -/
def isValidList (list : String) : Bool :=
  list == "whitelist" || list == "blacklist" || list == "pending"

/-- `Validation::isValidDuration` (source lines 216–218): seconds in
`1..300`. The JSON field is a C `int`, hence `Int`. -/
def isValidDuration (duration : Int) : Bool :=
  duration > 0 && duration ≤ 300

end Validation

-- ==================== STORAGE MANAGER MODULE ====================

/-- One NVS namespace (`whitelist` / `blacklist` / `pending`): a key→value
store of UID→name, modelled as an association list whose first binding for
a key is its current value. -/
abbrev NvsList := List (String × String)

/-- First-binding lookup, the model of `prefs.getString` / `prefs.isKey`. -/
def alGet : NvsList → String → Option String
  | [], _ => none
  | (k, v) :: rest, key => if key = k then some v else alGet rest key

/-- Key removal, the model of `prefs.remove`: erases every binding of the
key. -/
def alRemove : NvsList → String → NvsList
  | [], _ => []
  | (k, v) :: rest, key =>
    if k = key then alRemove rest key else (k, v) :: alRemove rest key

/-- `prefs.isKey`. -/
def hasKey (l : NvsList) (uid : String) : Bool := (alGet l uid).isSome

theorem alGet_alRemove (l : NvsList) (key k : String) :
    alGet (alRemove l key) k = if k = key then none else alGet l k := by
  induction l with
  | nil => simp [alRemove, alGet]
  | cons p rest ih =>
    obtain ⟨pk, pv⟩ := p
    simp only [alRemove]
    by_cases hpk : pk = key
    · subst hpk
      rw [if_pos rfl, ih]
      by_cases hk : k = pk <;> simp [alGet, hk]
    · rw [if_neg hpk]
      by_cases hk : k = pk
      · subst hk
        simp [alGet, hpk]
      · simp only [alGet, if_neg hk, ih]

theorem alRemove_alRemove (l : NvsList) (key : String) :
    alRemove (alRemove l key) key = alRemove l key := by
  induction l with
  | nil => simp [alRemove]
  | cons p rest ih =>
    obtain ⟨pk, pv⟩ := p
    by_cases hpk : pk = key <;> simp [alRemove, hpk, ih]

/-- The three authoritative NVS sets (source lines 224–392). -/
structure Registry where
  whitelist : NvsList
  blacklist : NvsList
  pending : NvsList
deriving Repr, DecidableEq

def emptyRegistry : Registry := ⟨[], [], []⟩

namespace StorageManager

/-- `StorageManager::isWhitelisted` (lines 227–240), with the NVS mutex
available. -/
def isWhitelisted (r : Registry) (uid : String) : Bool := hasKey r.whitelist uid

/-- `StorageManager::isBlacklisted` (lines 242–255). -/
def isBlacklisted (r : Registry) (uid : String) : Bool := hasKey r.blacklist uid

/-- `StorageManager::isPending` (lines 257–270). -/
def isPending (r : Registry) (uid : String) : Bool := hasKey r.pending uid

/-- `StorageManager::getName` (lines 272–285): `prefs.getString(uid,
"Unknown")` in the namespace `listType`; an unknown namespace opens
nothing and yields the default. -/
def getName (r : Registry) (uid listType : String) : String :=
  if listType = "whitelist" then (alGet r.whitelist uid).getD "Unknown"
  else if listType = "blacklist" then (alGet r.blacklist uid).getD "Unknown"
  else if listType = "pending" then (alGet r.pending uid).getD "Unknown"
  else "Unknown"

/-- `prefs.putString(uid, name) > 0`: the bytes-written count of the store,
positive exactly for the nonempty names this firmware writes. -/
def putOk (name : String) : Bool := !name.isEmpty

/-- `StorageManager::addToWhitelist` (lines 288–301): `putString` then
report success. -/
def addToWhitelist (r : Registry) (uid name : String) : Registry × Bool :=
  ({ r with whitelist := (uid, name) :: alRemove r.whitelist uid }, putOk name)

/-- `StorageManager::addToBlacklist` (lines 303–316). -/
def addToBlacklist (r : Registry) (uid name : String) : Registry × Bool :=
  ({ r with blacklist := (uid, name) :: alRemove r.blacklist uid }, putOk name)

/-- `StorageManager::addToPending` (lines 318–331). -/
def addToPending (r : Registry) (uid name : String) : Registry × Bool :=
  ({ r with pending := (uid, name) :: alRemove r.pending uid }, putOk name)

/-- `StorageManager::removeFromWhitelist` (lines 333–346): `prefs.remove`
succeeds exactly when the key existed. -/
def removeFromWhitelist (r : Registry) (uid : String) : Registry × Bool :=
  ({ r with whitelist := alRemove r.whitelist uid }, hasKey r.whitelist uid)

/-- `StorageManager::removeFromBlacklist` (lines 348–361). -/
def removeFromBlacklist (r : Registry) (uid : String) : Registry × Bool :=
  ({ r with blacklist := alRemove r.blacklist uid }, hasKey r.blacklist uid)

/-- `StorageManager::removeFromPending` (lines 363–376). -/
def removeFromPending (r : Registry) (uid : String) : Registry × Bool :=
  ({ r with pending := alRemove r.pending uid }, hasKey r.pending uid)

/-- `StorageManager::addToList` (lines 379–384). -/
def addToList (r : Registry) (list uid name : String) : Registry × Bool :=
  if list = "whitelist" then addToWhitelist r uid name
  else if list = "blacklist" then addToBlacklist r uid name
  else if list = "pending" then addToPending r uid name
  else (r, false)

/-- `StorageManager::removeFromList` (lines 386–391). -/
def removeFromList (r : Registry) (list uid : String) : Registry × Bool :=
  if list = "whitelist" then removeFromWhitelist r uid
  else if list = "blacklist" then removeFromBlacklist r uid
  else if list = "pending" then removeFromPending r uid
  else (r, false)

end StorageManager

/-- Disjointness of the three sets at one identifier: the identifier is a
member of at most one set. -/
def disjointAt (r : Registry) (uid : String) : Prop :=
  (StorageManager.isWhitelisted r uid).toNat
    + (StorageManager.isBlacklisted r uid).toNat
    + (StorageManager.isPending r uid).toNat ≤ 1

instance (r : Registry) (uid : String) : Decidable (disjointAt r uid) := by
  unfold disjointAt; infer_instance

/-- The spec's partition invariant: every identifier is in at most one of
whitelist/blacklist/pending. -/
def disjointSets (r : Registry) : Prop := ∀ uid, disjointAt r uid

-- ==================== CLOUD SERVICE MODULE ====================

/-- Arduino `String::toUpperCase` as used on every command UID:
per-character ASCII uppercase. -/
def strToUpper (s : String) : String := String.mk (s.data.map Char.toUpper)

/-- One `/commandErrors/{timestamp}` record written by
`CloudService::reportCommandError` (source lines 402–415); the timestamp
field is out of scope. -/
structure CmdError where
  command : String
  error : String
  originalData : String
deriving Repr, DecidableEq

/-- The outward Firebase mirror of the three sets: the
`/devices/device1/{list}/{uid}` nodes currently present, keyed by
`(list, uid)` and carrying the mirrored name. -/
abbrev Mirror := List ((String × String) × String)

/-- `Firebase.RTDB.setJSON` on `basePath + "/" + list + "/" + uid`:
upsert of the node. -/
def mirrorSet (m : Mirror) (list uid name : String) : Mirror :=
  ((list, uid), name) :: m.filter (fun e => !(e.1.1 == list && e.1.2 == uid))

/-- `Firebase.RTDB.deleteNode` on `basePath + "/" + list + "/" + uid`. -/
def mirrorDelete (m : Mirror) (list uid : String) : Mirror :=
  m.filter (fun e => !(e.1.1 == list && e.1.2 == uid))

theorem mirrorDelete_mirrorDelete (m : Mirror) (list uid : String) :
    mirrorDelete (mirrorDelete m list uid) list uid = mirrorDelete m list uid := by
  unfold mirrorDelete
  rw [List.filter_filter]
  simp

/-- Result of one list-mutating command handler: the registry, the outward
mirror, the `commandErrors` records emitted so far, and whether the
command node was removed from the inbox this cycle. -/
structure HandlerResult where
  registry : Registry
  mirror : Mirror
  errors : List CmdError
  removedCmd : Bool
deriving Repr, DecidableEq

namespace CloudService

open Validation StorageManager

/-- Parsed `/commands/add` payload (fields `list`, `uid`, optional
`name`). -/
structure AddCmd where
  list : String
  uid : String
  name? : Option String
deriving Repr, DecidableEq

/-- The sanitized name an add command will store: field absent defaults to
`"Unknown"` (source lines 542–543). -/
def addCmdName (cmd : AddCmd) : String :=
  match cmd.name? with
  | some n => sanitizeName n
  | none => "Unknown"

/-- The `originalData` string built by `handleAddCommand` (line 545). -/
def addOriginalData (cmd : AddCmd) : String :=
  "list=" ++ cmd.list ++ ", uid=" ++ (strToUpper cmd.uid) ++ ", name=" ++ addCmdName cmd

/-- `CloudService::handleAddCommand` (source lines 531–581) for a fetched
command with `list` and `uid` present. `removeOk` is the outcome of the
`deleteNode` on the command node: validate first; invalid → report error
and remove; valid → remove (abort on failure), write NVS, then mirror. -/
def handleAddCommand (cmd : AddCmd) (removeOk : Bool) (r : Registry)
    (m : Mirror) (errs : List CmdError) : HandlerResult :=
  if !isValidList cmd.list then
    ⟨r, m, errs ++ [⟨"add", "Invalid list type", addOriginalData cmd⟩], removeOk⟩
  else if !isValidUID (strToUpper cmd.uid) then
    ⟨r, m,
      errs ++ [⟨"add", "Invalid UID format (must be 8-20 hex chars, even length)",
        addOriginalData cmd⟩], removeOk⟩
  else if !removeOk then
    ⟨r, m, errs, false⟩
  else if !(addToList r cmd.list (strToUpper cmd.uid) (addCmdName cmd)).2 then
    ⟨(addToList r cmd.list (strToUpper cmd.uid) (addCmdName cmd)).1, m,
      errs ++ [⟨"add", "NVS write failed", addOriginalData cmd⟩], true⟩
  else
    ⟨(addToList r cmd.list (strToUpper cmd.uid) (addCmdName cmd)).1,
      mirrorSet m cmd.list (strToUpper cmd.uid) (addCmdName cmd), errs, true⟩

/-- Parsed `/commands/delete` payload. -/
structure DeleteCmd where
  list : String
  uid : String
deriving Repr, DecidableEq

/-- The `originalData` string built by `handleDeleteCommand` (line 596). -/
def deleteOriginalData (cmd : DeleteCmd) : String :=
  "list=" ++ cmd.list ++ ", uid=" ++ (strToUpper cmd.uid)

/-- `CloudService::handleDeleteCommand` (source lines 584–624): validate,
remove the command node (abort on failure), remove from NVS (result
ignored), delete the mirrored node. -/
def handleDeleteCommand (cmd : DeleteCmd) (removeOk : Bool) (r : Registry)
    (m : Mirror) (errs : List CmdError) : HandlerResult :=
  if !isValidList cmd.list then
    ⟨r, m, errs ++ [⟨"delete", "Invalid list type", deleteOriginalData cmd⟩], removeOk⟩
  else if !isValidUID (strToUpper cmd.uid) then
    ⟨r, m, errs ++ [⟨"delete", "Invalid UID format", deleteOriginalData cmd⟩], removeOk⟩
  else if !removeOk then
    ⟨r, m, errs, false⟩
  else
    ⟨(removeFromList r cmd.list (strToUpper cmd.uid)).1,
      mirrorDelete m cmd.list (strToUpper cmd.uid), errs, true⟩

/-- Parsed `/commands/move` payload (fields `from`, `to`, `uid`, optional
`name`). -/
structure MoveCmd where
  fromList : String
  toList : String
  uid : String
  name? : Option String
deriving Repr, DecidableEq

/-- The name a move command will store: absent name falls back to the
name recorded in the source set (source lines 641–645). -/
def moveCmdName (r : Registry) (cmd : MoveCmd) : String :=
  match cmd.name? with
  | some n => sanitizeName n
  | none => getName r (strToUpper cmd.uid) cmd.fromList

/-- The `originalData` string built by `handleMoveCommand` (line 647). -/
def moveOriginalData (cmd : MoveCmd) : String :=
  "from=" ++ cmd.fromList ++ ", to=" ++ cmd.toList ++ ", uid=" ++ (strToUpper cmd.uid)

/-- `CloudService::handleMoveCommand` (source lines 627–687): validate
both set names, UID, and `from ≠ to`; remove the command node (abort on
failure); then remove-from-source, add-to-destination, and mirror both. -/
def handleMoveCommand (cmd : MoveCmd) (removeOk : Bool) (r : Registry)
    (m : Mirror) (errs : List CmdError) : HandlerResult :=
  if !(isValidList cmd.fromList) || !(isValidList cmd.toList) then
    ⟨r, m, errs ++ [⟨"move", "Invalid list type", moveOriginalData cmd⟩], removeOk⟩
  else if !isValidUID (strToUpper cmd.uid) then
    ⟨r, m, errs ++ [⟨"move", "Invalid UID format", moveOriginalData cmd⟩], removeOk⟩
  else if cmd.fromList = cmd.toList then
    ⟨r, m, errs ++ [⟨"move", "Source and destination are the same", moveOriginalData cmd⟩],
      removeOk⟩
  else if !removeOk then
    ⟨r, m, errs, false⟩
  else
    ⟨(addToList (removeFromList r cmd.fromList (strToUpper cmd.uid)).1 cmd.toList
        (strToUpper cmd.uid) (moveCmdName r cmd)).1,
      mirrorSet (mirrorDelete m cmd.fromList (strToUpper cmd.uid)) cmd.toList
        (strToUpper cmd.uid) (moveCmdName r cmd), errs, true⟩

/-- Parsed `/commands/rename` payload. -/
structure RenameCmd where
  list : String
  uid : String
  name : String
deriving Repr, DecidableEq

/-- The `originalData` string built by `handleRenameCommand` (line 703). -/
def renameOriginalData (cmd : RenameCmd) : String :=
  "list=" ++ cmd.list ++ ", uid=" ++ (strToUpper cmd.uid) ++ ", name=" ++ sanitizeName cmd.name

/-- `CloudService::handleRenameCommand` (source lines 690–729): validate,
remove the command node (abort on failure), overwrite the NVS entry, and
update the mirrored `name` field. -/
def handleRenameCommand (cmd : RenameCmd) (removeOk : Bool) (r : Registry)
    (m : Mirror) (errs : List CmdError) : HandlerResult :=
  if !isValidList cmd.list then
    ⟨r, m, errs ++ [⟨"rename", "Invalid list type", renameOriginalData cmd⟩], removeOk⟩
  else if !isValidUID (strToUpper cmd.uid) then
    ⟨r, m, errs ++ [⟨"rename", "Invalid UID format", renameOriginalData cmd⟩], removeOk⟩
  else if !removeOk then
    ⟨r, m, errs, false⟩
  else
    ⟨(addToList r cmd.list (strToUpper cmd.uid) (sanitizeName cmd.name)).1,
      mirrorSet m cmd.list (strToUpper cmd.uid) (sanitizeName cmd.name), errs, true⟩

/-- Result of `handleUnlockCommand`: the inter-core command queue (unlock
durations in milliseconds), errors, and whether the command node was
removed. -/
structure UnlockResult where
  queue : List Nat
  errors : List CmdError
  removedCmd : Bool
deriving Repr, DecidableEq

/-- `CloudService::handleUnlockCommand` (source lines 492–528) for a
fetched command with a `duration` field: validate the duration first
(invalid → report error and remove); valid → remove the command node
(abort on failure) and enqueue `duration * 1000` ms for Core 1. -/
def handleUnlockCommand (duration : Int) (removeOk : Bool) (q : List Nat)
    (errs : List CmdError) : UnlockResult :=
  if !isValidDuration duration then
    ⟨q, errs ++ [⟨"unlock", "Invalid duration (must be 1-300)",
      "duration=" ++ toString duration⟩], removeOk⟩
  else if !removeOk then
    ⟨q, errs, false⟩
  else
    ⟨q ++ [(duration * 1000).toNat], errs, true⟩

end CloudService

-- ==================== ACCESS CONTROLLER MODULE ====================

namespace AccessController

open Validation StorageManager

/-- The relay portion of the controller state (source lines 760–768).
At boot all fields are zero-initialized globals. -/
structure RelayState where
  relayActive : Bool
  relayStartTime : Nat
  relayDuration : Nat
  lastUnlock : Nat
deriving Repr, DecidableEq

/-- The zero-initialized globals at boot: relay off, `lastUnlock = 0`. -/
def bootRelayState : RelayState :=
  ⟨false, 0, 0, 0⟩

/-- `AccessController::activateRelay` (source lines 782–795) at time
`now = millis()`: if `millis() - lastUnlock < UNLOCK_COOLDOWN_MS` the call
is ignored; otherwise the relay goes high, the deadline
(`relayStartTime`/`relayDuration`) is scheduled and `lastUnlock` is
recorded. The returned Bool reports whether an actuation started. -/
def activateRelay (s : RelayState) (now duration : Nat) : RelayState × Bool :=
  if usub now s.lastUnlock < UNLOCK_COOLDOWN_MS then
    (s, false)
  else
    (⟨true, now, duration, now⟩, true)

/-- The exit-sensor debounce/latch state (source lines 771–773),
zero-initialized at boot. -/
structure ExitState where
  lastExitSensorState : Bool
  exitSensorTriggered : Bool
  lastExitTriggerTime : Nat
deriving Repr, DecidableEq

/-- One audit record as queued by the firmware (`LogEntry`). -/
structure LogRec where
  uid : String
  name : String
  status : String
  type : String
deriving Repr, DecidableEq

/-- The audit record queued by the exit-sensor trigger (source lines
823–833). -/
def exitLogEntry : LogRec := ⟨"EXIT_SENSOR", "Exit Button", "granted", "exit"⟩

/-- `AccessController::handleExitSensor` (source lines 798–845) for one
poll reading level `cur` at time `now`. Returns the new state and whether
this poll fired the trigger — i.e. performed one
`activateRelay(RELAY_DEFAULT_DURATION)`, one short buzz, and queued one
`exitLogEntry` audit record. -/
def handleExitSensor (s : ExitState) (cur : Bool) (now : Nat) : ExitState × Bool :=
  if cur ≠ s.lastExitSensorState ∧ usub now s.lastExitTriggerTime < EXIT_DEBOUNCE_MS then
    (s, false)
  else if cur && !s.lastExitSensorState && !s.exitSensorTriggered then
    (⟨cur, true, now⟩, true)
  else if !cur && s.exitSensorTriggered
      && decide (usub now s.lastExitTriggerTime > EXIT_DEBOUNCE_MS) then
    (⟨cur, false, s.lastExitTriggerTime⟩, false)
  else
    (⟨cur, s.exitSensorTriggered, s.lastExitTriggerTime⟩, false)

/-- A run of `handleExitSensor` polls over a list of `(level, time)`
samples, accumulating the relay-activation requests (durations) and the
audit records produced. -/
def pollExitRun (s : ExitState) : List (Bool × Nat) → ExitState × List Nat × List LogRec
  | [] => (s, [], [])
  | (cur, t) :: rest =>
    let (s1, fired) := handleExitSensor s cur t
    let (s2, acts, logs) := pollExitRun s1 rest
    (s2, (if fired then RELAY_DEFAULT_DURATION :: acts else acts),
      (if fired then exitLogEntry :: logs else logs))

/-- The observable outcome of one `AccessController::handleRFIDScan`
(source lines 870–953): the registry afterwards, the pending-notices
pushed onto `pendingQueue`, the audit records pushed onto `logQueue`, the
buzzer duration requested, and the relay activation requested (if any). -/
structure ScanResult where
  registry : Registry
  pendingNotices : List String
  logs : List LogRec
  buzzMs : Nat
  relayRequest : Option Nat
deriving Repr, DecidableEq

/-- `AccessController::handleRFIDScan` (source lines 870–953): validate
the UID, then check whitelist, then blacklist; otherwise the unknown card
is inserted into pending when not already there, a pending-notice is
queued, and a `pending` audit record is queued. -/
def handleRFIDScan (r : Registry) (uid : String) : ScanResult :=
  if !isValidUID uid then
    ⟨r, [], [], 200, none⟩
  else if isWhitelisted r uid then
    ⟨r, [], [⟨uid, getName r uid "whitelist", "granted", "rfid"⟩], 100,
      some RELAY_DEFAULT_DURATION⟩
  else if isBlacklisted r uid then
    ⟨r, [], [⟨uid, getName r uid "blacklist", "denied", "rfid"⟩], 2000, none⟩
  else if !isPending r uid then
    ⟨(addToPending r uid "Unknown").1, [uid], [⟨uid, "Unknown", "pending", "rfid"⟩], 500, none⟩
  else
    ⟨r, [uid], [⟨uid, "Unknown", "pending", "rfid"⟩], 500, none⟩

end AccessController

-- ==================== HELPER LEMMAS ====================

theorem hasKey_cons (k v u : String) (l : NvsList) :
    hasKey ((k, v) :: l) u = if u = k then true else hasKey l u := by
  simp only [hasKey, alGet]
  split <;> rfl

theorem hasKey_alRemove (l : NvsList) (key u : String) :
    hasKey (alRemove l key) u = if u = key then false else hasKey l u := by
  unfold hasKey
  rw [alGet_alRemove]
  split <;> rfl

-- ==================== CLAIM THEOREMS ====================

open Validation StorageManager CloudService AccessController

/-- C9: the identifier validator accepts a string exactly when it consists
only of hexadecimal characters and its length is even and between 8 and 20
inclusive; `"ABC"` (length 3, odd) is rejected — and `handleRFIDScan`
rejects it before any set lookup, touching no registry state; a
20-character all-hex identifier is accepted; a 22-character one is
rejected. -/
theorem C9_uid_validation :
    (∀ uid : String,
      isValidUID uid = true ↔
        (8 ≤ uid.length ∧ uid.length ≤ 20 ∧ uid.length % 2 = 0 ∧
          uid.data.all isxdigit = true)) ∧
    isValidUID "ABC" = false ∧
    isValidUID "0123456789ABCDEF0123" = true ∧
    isValidUID "0123456789ABCDEF012345" = false ∧
    (∀ r : Registry, handleRFIDScan r "ABC" = ⟨r, [], [], 200, none⟩) := by
  refine ⟨?_, by decide, by decide, by decide, ?_⟩
  · intro uid
    unfold isValidUID MIN_UID_LENGTH MAX_UID_LENGTH
    constructor
    · intro h
      by_cases hc1 : (decide (uid.length < 8) || decide (uid.length > 20)) = true
      · rw [if_pos hc1] at h
        simp at h
      · rw [if_neg hc1] at h
        by_cases hc2 : (uid.length % 2 != 0) = true
        · rw [if_pos hc2] at h
          simp at h
        · rw [if_neg hc2] at h
          simp at hc1 hc2
          exact ⟨by omega, by omega, by omega, h⟩
    · rintro ⟨hlo, hhi, hev, hall⟩
      have h1 : (decide (uid.length < 8) || decide (uid.length > 20)) = false := by
        simp
        omega
      have h2 : (uid.length % 2 != 0) = false := by
        simp [hev]
      rw [h1, h2]
      simpa using hall
  · intro r
    have h : isValidUID "ABC" = false := by decide
    simp [handleRFIDScan, h]

/-- C5: two `activateRelay` calls within `UNLOCK_COOLDOWN_MS` (3000 ms) of
each other yield exactly one actuation interval: the first call (made when
the cooldown has elapsed) sets the relay active, schedules the deadline
and records `lastUnlock := now1`; the second call, `now2 - now1 < 3000` ms
later, is rejected by the cooldown check and leaves the relay state,
deadline, and `lastUnlock` unchanged. -/
theorem C5_relay_cooldown (s : RelayState) (now1 now2 d1 d2 : Nat)
    (h1 : UNLOCK_COOLDOWN_MS ≤ usub now1 s.lastUnlock)
    (h2 : now1 ≤ now2)
    (h3 : now2 - now1 < UNLOCK_COOLDOWN_MS)
    (h4 : now2 < 2 ^ 32) :
    activateRelay s now1 d1 = (⟨true, now1, d1, now1⟩, true) ∧
    activateRelay ⟨true, now1, d1, now1⟩ now2 d2 = (⟨true, now1, d1, now1⟩, false) := by
  constructor
  · unfold activateRelay
    rw [if_neg (by omega)]
  · unfold activateRelay
    rw [if_pos]
    show usub now2 now1 < UNLOCK_COOLDOWN_MS
    rw [usub_eq_sub h2 h4]
    exact h3

/-- Witness for C5 at a concrete state: first unlock at 5000 ms after a
long-idle boot state, second request at 6000 ms. -/
theorem C5_relay_cooldown_witness :
    activateRelay bootRelayState 5000 3000 = (⟨true, 5000, 3000, 5000⟩, true) ∧
    activateRelay ⟨true, 5000, 3000, 5000⟩ 6000 3000 = (⟨true, 5000, 3000, 5000⟩, false) :=
  C5_relay_cooldown bootRelayState 5000 6000 3000 3000 (by decide) (by decide)
    (by decide) (by decide)

/-- C10: because the global `lastUnlock` is zero-initialized and
`activateRelay` rejects whenever `millis() - lastUnlock <
UNLOCK_COOLDOWN_MS`, every activation request during the first 3000 ms
after boot is silently ignored — all of credential grant, exit request and
remote unlock route through this one cooldown check. -/
theorem C10_boot_cooldown (now d : Nat) (h : now < UNLOCK_COOLDOWN_MS) :
    activateRelay bootRelayState now d = (bootRelayState, false) := by
  unfold activateRelay
  rw [if_pos]
  show usub now bootRelayState.lastUnlock < UNLOCK_COOLDOWN_MS
  show usub now 0 < UNLOCK_COOLDOWN_MS
  unfold usub UNLOCK_COOLDOWN_MS
  unfold UNLOCK_COOLDOWN_MS at h
  omega

/-- Witness for C10: an unlock request at 1000 ms after boot is a no-op. -/
theorem C10_boot_cooldown_witness :
    activateRelay bootRelayState 1000 3000 = (bootRelayState, false) :=
  C10_boot_cooldown 1000 3000 (by decide)

/-- C3: removal of the command node from the inbox is the commit point of
every remote-command handler. In each handler the registry mutation (and
the outward mirror write / unlock enqueue) sits strictly after a
successful `deleteNode` of the command node, so when that removal fails
(`removeOk = false`) the handler aborts leaving registry, mirror, and
command queue exactly as they were — a command is never executed more
than once per submission. -/
theorem C3_removal_commit_point :
    (∀ (cmd : AddCmd) (r : Registry) (m : Mirror) (errs : List CmdError),
      (handleAddCommand cmd false r m errs).registry = r ∧
      (handleAddCommand cmd false r m errs).mirror = m ∧
      (handleAddCommand cmd false r m errs).removedCmd = false) ∧
    (∀ (cmd : DeleteCmd) (r : Registry) (m : Mirror) (errs : List CmdError),
      (handleDeleteCommand cmd false r m errs).registry = r ∧
      (handleDeleteCommand cmd false r m errs).mirror = m ∧
      (handleDeleteCommand cmd false r m errs).removedCmd = false) ∧
    (∀ (cmd : MoveCmd) (r : Registry) (m : Mirror) (errs : List CmdError),
      (handleMoveCommand cmd false r m errs).registry = r ∧
      (handleMoveCommand cmd false r m errs).mirror = m ∧
      (handleMoveCommand cmd false r m errs).removedCmd = false) ∧
    (∀ (cmd : RenameCmd) (r : Registry) (m : Mirror) (errs : List CmdError),
      (handleRenameCommand cmd false r m errs).registry = r ∧
      (handleRenameCommand cmd false r m errs).mirror = m ∧
      (handleRenameCommand cmd false r m errs).removedCmd = false) ∧
    (∀ (d : Int) (q : List Nat) (errs : List CmdError),
      (handleUnlockCommand d false q errs).queue = q ∧
      (handleUnlockCommand d false q errs).removedCmd = false) := by
  refine ⟨?_, ?_, ?_, ?_, ?_⟩
  · intro cmd r m errs
    unfold handleAddCommand
    split_ifs <;> simp_all
  · intro cmd r m errs
    unfold handleDeleteCommand
    split_ifs <;> simp_all
  · intro cmd r m errs
    unfold handleMoveCommand
    split_ifs <;> simp_all
  · intro cmd r m errs
    unfold handleRenameCommand
    split_ifs <;> simp_all
  · intro d q errs
    unfold handleUnlockCommand
    split_ifs <;> simp_all

/-- C4: every invalid remote command — an unknown set name or a malformed
identifier in Add, Delete, Rename or Move, an out-of-range Unlock
duration, and a Move with `from == to` — makes the processor append
exactly one `CommandError` record carrying the command kind, the reason
string, and the raw payload, and remove the command node from the inbox,
while registry, mirror, and command queue are left unchanged. -/
theorem C4_invalid_commands :
    (∀ (cmd : AddCmd) (r : Registry) (m : Mirror) (errs : List CmdError),
      isValidList cmd.list = false →
      handleAddCommand cmd true r m errs =
        ⟨r, m, errs ++ [⟨"add", "Invalid list type", addOriginalData cmd⟩], true⟩) ∧
    (∀ (cmd : AddCmd) (r : Registry) (m : Mirror) (errs : List CmdError),
      isValidList cmd.list = true →
      isValidUID (strToUpper cmd.uid) = false →
      handleAddCommand cmd true r m errs =
        ⟨r, m,
          errs ++ [⟨"add", "Invalid UID format (must be 8-20 hex chars, even length)",
            addOriginalData cmd⟩], true⟩) ∧
    (∀ (cmd : DeleteCmd) (r : Registry) (m : Mirror) (errs : List CmdError),
      isValidList cmd.list = false →
      handleDeleteCommand cmd true r m errs =
        ⟨r, m, errs ++ [⟨"delete", "Invalid list type", deleteOriginalData cmd⟩], true⟩) ∧
    (∀ (cmd : DeleteCmd) (r : Registry) (m : Mirror) (errs : List CmdError),
      isValidList cmd.list = true →
      isValidUID (strToUpper cmd.uid) = false →
      handleDeleteCommand cmd true r m errs =
        ⟨r, m, errs ++ [⟨"delete", "Invalid UID format", deleteOriginalData cmd⟩], true⟩) ∧
    (∀ (cmd : RenameCmd) (r : Registry) (m : Mirror) (errs : List CmdError),
      isValidList cmd.list = false →
      handleRenameCommand cmd true r m errs =
        ⟨r, m, errs ++ [⟨"rename", "Invalid list type", renameOriginalData cmd⟩], true⟩) ∧
    (∀ (cmd : RenameCmd) (r : Registry) (m : Mirror) (errs : List CmdError),
      isValidList cmd.list = true →
      isValidUID (strToUpper cmd.uid) = false →
      handleRenameCommand cmd true r m errs =
        ⟨r, m, errs ++ [⟨"rename", "Invalid UID format", renameOriginalData cmd⟩], true⟩) ∧
    (∀ (cmd : MoveCmd) (r : Registry) (m : Mirror) (errs : List CmdError),
      (isValidList cmd.fromList && isValidList cmd.toList) = false →
      handleMoveCommand cmd true r m errs =
        ⟨r, m, errs ++ [⟨"move", "Invalid list type", moveOriginalData cmd⟩], true⟩) ∧
    (∀ (cmd : MoveCmd) (r : Registry) (m : Mirror) (errs : List CmdError),
      isValidList cmd.fromList = true →
      isValidList cmd.toList = true →
      isValidUID (strToUpper cmd.uid) = false →
      handleMoveCommand cmd true r m errs =
        ⟨r, m, errs ++ [⟨"move", "Invalid UID format", moveOriginalData cmd⟩], true⟩) ∧
    (∀ (d : Int) (q : List Nat) (errs : List CmdError),
      isValidDuration d = false →
      handleUnlockCommand d true q errs =
        ⟨q, errs ++ [⟨"unlock", "Invalid duration (must be 1-300)",
          "duration=" ++ toString d⟩], true⟩) ∧
    (∀ (cmd : MoveCmd) (r : Registry) (m : Mirror) (errs : List CmdError),
      isValidList cmd.fromList = true →
      isValidList cmd.toList = true →
      isValidUID (strToUpper cmd.uid) = true →
      cmd.fromList = cmd.toList →
      handleMoveCommand cmd true r m errs =
        ⟨r, m, errs ++ [⟨"move", "Source and destination are the same",
          moveOriginalData cmd⟩], true⟩) := by
  refine ⟨?_, ?_, ?_, ?_, ?_, ?_, ?_, ?_, ?_, ?_⟩
  · intro cmd r m errs hl
    unfold handleAddCommand
    rw [hl]
    rfl
  · intro cmd r m errs hl hu
    unfold handleAddCommand
    rw [hl, hu]
    rfl
  · intro cmd r m errs hl
    unfold handleDeleteCommand
    rw [hl]
    rfl
  · intro cmd r m errs hl hu
    unfold handleDeleteCommand
    rw [hl, hu]
    rfl
  · intro cmd r m errs hl
    unfold handleRenameCommand
    rw [hl]
    rfl
  · intro cmd r m errs hl hu
    unfold handleRenameCommand
    rw [hl, hu]
    rfl
  · intro cmd r m errs hl
    unfold handleMoveCommand
    have hc : (!(isValidList cmd.fromList) || !(isValidList cmd.toList)) = true := by
      cases hf : isValidList cmd.fromList <;> cases ht : isValidList cmd.toList <;>
        simp_all
    rw [hc]
    rfl
  · intro cmd r m errs hf ht hu
    unfold handleMoveCommand
    rw [hf, ht, hu]
    rfl
  · intro d q errs hd
    unfold handleUnlockCommand
    rw [hd]
    rfl
  · intro cmd r m errs hf ht hu heq
    unfold handleMoveCommand
    rw [hf, ht, hu, if_pos heq]
    rfl

/-- Witness for C4: every invalid shape at a concrete command — Add,
Delete, Rename and Move into the unknown set `"frontlist"` or with the
odd non-hex UID `"XYZ"`, an unlock of duration 0 seconds, and a
whitelist→whitelist move. -/
theorem C4_invalid_commands_witness :
    handleAddCommand ⟨"frontlist", "AABBCCDD", none⟩ true emptyRegistry [] [] =
      ⟨emptyRegistry, [],
        [⟨"add", "Invalid list type", addOriginalData ⟨"frontlist", "AABBCCDD", none⟩⟩],
        true⟩ ∧
    handleAddCommand ⟨"whitelist", "XYZ", none⟩ true emptyRegistry [] [] =
      ⟨emptyRegistry, [],
        [⟨"add", "Invalid UID format (must be 8-20 hex chars, even length)",
          addOriginalData ⟨"whitelist", "XYZ", none⟩⟩], true⟩ ∧
    handleDeleteCommand ⟨"frontlist", "AABBCCDD"⟩ true emptyRegistry [] [] =
      ⟨emptyRegistry, [],
        [⟨"delete", "Invalid list type", deleteOriginalData ⟨"frontlist", "AABBCCDD"⟩⟩],
        true⟩ ∧
    handleDeleteCommand ⟨"whitelist", "XYZ"⟩ true emptyRegistry [] [] =
      ⟨emptyRegistry, [],
        [⟨"delete", "Invalid UID format", deleteOriginalData ⟨"whitelist", "XYZ"⟩⟩], true⟩ ∧
    handleRenameCommand ⟨"frontlist", "AABBCCDD", "Bob"⟩ true emptyRegistry [] [] =
      ⟨emptyRegistry, [],
        [⟨"rename", "Invalid list type", renameOriginalData ⟨"frontlist", "AABBCCDD", "Bob"⟩⟩],
        true⟩ ∧
    handleRenameCommand ⟨"whitelist", "XYZ", "Bob"⟩ true emptyRegistry [] [] =
      ⟨emptyRegistry, [],
        [⟨"rename", "Invalid UID format", renameOriginalData ⟨"whitelist", "XYZ", "Bob"⟩⟩],
        true⟩ ∧
    handleMoveCommand ⟨"frontlist", "whitelist", "AABBCCDD", none⟩ true emptyRegistry [] [] =
      ⟨emptyRegistry, [],
        [⟨"move", "Invalid list type",
          moveOriginalData ⟨"frontlist", "whitelist", "AABBCCDD", none⟩⟩], true⟩ ∧
    handleMoveCommand ⟨"whitelist", "blacklist", "XYZ", none⟩ true emptyRegistry [] [] =
      ⟨emptyRegistry, [],
        [⟨"move", "Invalid UID format",
          moveOriginalData ⟨"whitelist", "blacklist", "XYZ", none⟩⟩], true⟩ ∧
    handleUnlockCommand 0 true [] [] =
      ⟨[], [⟨"unlock", "Invalid duration (must be 1-300)", "duration=" ++ toString (0 : Int)⟩],
        true⟩ ∧
    handleMoveCommand ⟨"whitelist", "whitelist", "AABBCCDD", none⟩ true emptyRegistry [] [] =
      ⟨emptyRegistry, [],
        [⟨"move", "Source and destination are the same",
          moveOriginalData ⟨"whitelist", "whitelist", "AABBCCDD", none⟩⟩], true⟩ := by
  obtain ⟨ha1, ha2, hd1, hd2, hr1, hr2, hm1, hm2, hq1, hm3⟩ := C4_invalid_commands
  exact ⟨ha1 _ _ _ _ (by decide),
    ha2 _ _ _ _ (by decide) (by decide),
    hd1 _ _ _ _ (by decide),
    hd2 _ _ _ _ (by decide) (by decide),
    hr1 _ _ _ _ (by decide),
    hr2 _ _ _ _ (by decide) (by decide),
    hm1 _ _ _ _ (by decide),
    hm2 _ _ _ _ (by decide) (by decide) (by decide),
    hq1 _ _ _ (by decide),
    hm3 _ _ _ _ (by decide) (by decide) (by decide) (by decide)⟩

theorem removeFromList_idem (r : Registry) (list uid : String) :
    (removeFromList (removeFromList r list uid).1 list uid).1 =
      (removeFromList r list uid).1 := by
  unfold removeFromList removeFromWhitelist removeFromBlacklist removeFromPending
  split_ifs <;> simp_all [alRemove_alRemove]

/-- C7: applying the same validated Delete command twice is idempotent.
The second application, whose identifier is by then absent from the named
set, still completes the cycle normally (`removedCmd = true`), emits no
`CommandError` record, and the second outward `deleteNode` leaves the
mirror state exactly as the first left it — no spurious second deletion
is observable outward. -/
theorem C7_delete_idempotent (list uid : String) (r : Registry) (m : Mirror)
    (errs : List CmdError)
    (hl : isValidList list = true)
    (hu : isValidUID (strToUpper uid) = true) :
    (handleDeleteCommand ⟨list, uid⟩ true
        (handleDeleteCommand ⟨list, uid⟩ true r m errs).registry
        (handleDeleteCommand ⟨list, uid⟩ true r m errs).mirror
        (handleDeleteCommand ⟨list, uid⟩ true r m errs).errors).registry =
      (handleDeleteCommand ⟨list, uid⟩ true r m errs).registry ∧
    (handleDeleteCommand ⟨list, uid⟩ true
        (handleDeleteCommand ⟨list, uid⟩ true r m errs).registry
        (handleDeleteCommand ⟨list, uid⟩ true r m errs).mirror
        (handleDeleteCommand ⟨list, uid⟩ true r m errs).errors).mirror =
      (handleDeleteCommand ⟨list, uid⟩ true r m errs).mirror ∧
    (handleDeleteCommand ⟨list, uid⟩ true
        (handleDeleteCommand ⟨list, uid⟩ true r m errs).registry
        (handleDeleteCommand ⟨list, uid⟩ true r m errs).mirror
        (handleDeleteCommand ⟨list, uid⟩ true r m errs).errors).errors =
      (handleDeleteCommand ⟨list, uid⟩ true r m errs).errors ∧
    (handleDeleteCommand ⟨list, uid⟩ true
        (handleDeleteCommand ⟨list, uid⟩ true r m errs).registry
        (handleDeleteCommand ⟨list, uid⟩ true r m errs).mirror
        (handleDeleteCommand ⟨list, uid⟩ true r m errs).errors).removedCmd = true := by
  unfold handleDeleteCommand
  rw [hl, hu]
  simp only [Bool.not_true, Bool.false_eq_true, if_false, Bool.not_false, if_true]
  exact ⟨removeFromList_idem r list (strToUpper uid),
    mirrorDelete_mirrorDelete m list (strToUpper uid), trivial, trivial⟩

/-- Witness for C7: deleting `"AABBCCDD"` from the whitelist twice,
starting from a registry that whitelists it. -/
theorem C7_delete_idempotent_witness :
    (handleDeleteCommand ⟨"whitelist", "AABBCCDD"⟩ true
        (handleDeleteCommand ⟨"whitelist", "AABBCCDD"⟩ true
          ⟨[("AABBCCDD", "Alice")], [], []⟩ [(("whitelist", "AABBCCDD"), "Alice")] []).registry
        (handleDeleteCommand ⟨"whitelist", "AABBCCDD"⟩ true
          ⟨[("AABBCCDD", "Alice")], [], []⟩ [(("whitelist", "AABBCCDD"), "Alice")] []).mirror
        (handleDeleteCommand ⟨"whitelist", "AABBCCDD"⟩ true
          ⟨[("AABBCCDD", "Alice")], [], []⟩ [(("whitelist", "AABBCCDD"), "Alice")] []).errors).registry =
      (handleDeleteCommand ⟨"whitelist", "AABBCCDD"⟩ true
        ⟨[("AABBCCDD", "Alice")], [], []⟩ [(("whitelist", "AABBCCDD"), "Alice")] []).registry ∧
    (handleDeleteCommand ⟨"whitelist", "AABBCCDD"⟩ true
        (handleDeleteCommand ⟨"whitelist", "AABBCCDD"⟩ true
          ⟨[("AABBCCDD", "Alice")], [], []⟩ [(("whitelist", "AABBCCDD"), "Alice")] []).registry
        (handleDeleteCommand ⟨"whitelist", "AABBCCDD"⟩ true
          ⟨[("AABBCCDD", "Alice")], [], []⟩ [(("whitelist", "AABBCCDD"), "Alice")] []).mirror
        (handleDeleteCommand ⟨"whitelist", "AABBCCDD"⟩ true
          ⟨[("AABBCCDD", "Alice")], [], []⟩ [(("whitelist", "AABBCCDD"), "Alice")] []).errors).mirror =
      (handleDeleteCommand ⟨"whitelist", "AABBCCDD"⟩ true
        ⟨[("AABBCCDD", "Alice")], [], []⟩ [(("whitelist", "AABBCCDD"), "Alice")] []).mirror ∧
    (handleDeleteCommand ⟨"whitelist", "AABBCCDD"⟩ true
        (handleDeleteCommand ⟨"whitelist", "AABBCCDD"⟩ true
          ⟨[("AABBCCDD", "Alice")], [], []⟩ [(("whitelist", "AABBCCDD"), "Alice")] []).registry
        (handleDeleteCommand ⟨"whitelist", "AABBCCDD"⟩ true
          ⟨[("AABBCCDD", "Alice")], [], []⟩ [(("whitelist", "AABBCCDD"), "Alice")] []).mirror
        (handleDeleteCommand ⟨"whitelist", "AABBCCDD"⟩ true
          ⟨[("AABBCCDD", "Alice")], [], []⟩ [(("whitelist", "AABBCCDD"), "Alice")] []).errors).errors =
      (handleDeleteCommand ⟨"whitelist", "AABBCCDD"⟩ true
        ⟨[("AABBCCDD", "Alice")], [], []⟩ [(("whitelist", "AABBCCDD"), "Alice")] []).errors ∧
    (handleDeleteCommand ⟨"whitelist", "AABBCCDD"⟩ true
        (handleDeleteCommand ⟨"whitelist", "AABBCCDD"⟩ true
          ⟨[("AABBCCDD", "Alice")], [], []⟩ [(("whitelist", "AABBCCDD"), "Alice")] []).registry
        (handleDeleteCommand ⟨"whitelist", "AABBCCDD"⟩ true
          ⟨[("AABBCCDD", "Alice")], [], []⟩ [(("whitelist", "AABBCCDD"), "Alice")] []).mirror
        (handleDeleteCommand ⟨"whitelist", "AABBCCDD"⟩ true
          ⟨[("AABBCCDD", "Alice")], [], []⟩ [(("whitelist", "AABBCCDD"), "Alice")] []).errors).removedCmd = true :=
  C7_delete_idempotent "whitelist" "AABBCCDD" ⟨[("AABBCCDD", "Alice")], [], []⟩
    [(("whitelist", "AABBCCDD"), "Alice")] [] (by decide) (by decide)

/-- C2 counterexample: the claim says the second scan of the
already-pending identifier `"1234ABCD"` enqueues zero additional
pending-notices, but `handleRFIDScan` pushes onto `pendingQueue`
unconditionally in the unknown-card branch (source lines 931–938), so the
second scan enqueues one notice again. -/
theorem C2_pending_rescan_cex :
    (handleRFIDScan (handleRFIDScan emptyRegistry "1234ABCD").registry
        "1234ABCD").pendingNotices ≠ [] := by
  decide

/-- C2 (amended): scanning the unknown identifier `"1234ABCD"` twice in
succession, the first scan inserts it into the Pending set and enqueues
one pending-notice; the second scan finds it already Pending and does not
re-insert (registry unchanged) but still enqueues one additional
pending-notice, because the enqueue is unconditional; both scans emit an
audit record with outcome `pending`. -/
theorem C2_pending_rescan :
    isPending emptyRegistry "1234ABCD" = false ∧
    isPending (handleRFIDScan emptyRegistry "1234ABCD").registry "1234ABCD" = true ∧
    (handleRFIDScan emptyRegistry "1234ABCD").pendingNotices = ["1234ABCD"] ∧
    (handleRFIDScan (handleRFIDScan emptyRegistry "1234ABCD").registry
        "1234ABCD").registry =
      (handleRFIDScan emptyRegistry "1234ABCD").registry ∧
    (handleRFIDScan (handleRFIDScan emptyRegistry "1234ABCD").registry
        "1234ABCD").pendingNotices = ["1234ABCD"] ∧
    (handleRFIDScan emptyRegistry "1234ABCD").logs =
      [⟨"1234ABCD", "Unknown", "pending", "rfid"⟩] ∧
    (handleRFIDScan (handleRFIDScan emptyRegistry "1234ABCD").registry
        "1234ABCD").logs = [⟨"1234ABCD", "Unknown", "pending", "rfid"⟩] := by
  decide

/-- C6: `handleRFIDScan` classifies a valid identifier by checking the
whitelist first — a whitelisted identifier is granted (with the
whitelist's stored name, a lock request for the default duration, and a
`granted` audit record) for every registry, in particular also when the
identifier is simultaneously blacklisted; and the round trip
`Add(whitelist, "AABBCCDD", "Alice")` then `handleRFIDScan "AABBCCDD"`
yields `granted` with name `"Alice"` from any starting registry. -/
theorem C6_allow_first_roundtrip :
    (∀ (r : Registry) (uid : String),
      isValidUID uid = true →
      isWhitelisted r uid = true →
      handleRFIDScan r uid =
        ⟨r, [], [⟨uid, getName r uid "whitelist", "granted", "rfid"⟩], 100,
          some RELAY_DEFAULT_DURATION⟩) ∧
    (∀ (r0 : Registry) (m : Mirror) (errs : List CmdError),
      handleRFIDScan
          (handleAddCommand ⟨"whitelist", "AABBCCDD", some "Alice"⟩ true r0 m errs).registry
          "AABBCCDD" =
        ⟨(handleAddCommand ⟨"whitelist", "AABBCCDD", some "Alice"⟩ true r0 m errs).registry,
          [], [⟨"AABBCCDD", "Alice", "granted", "rfid"⟩], 100,
          some RELAY_DEFAULT_DURATION⟩) := by
  constructor
  · intro r uid hv hw
    unfold handleRFIDScan
    rw [hv, hw]
    simp
  · intro r0 m errs
    rfl

/-- Witness for C6 at a concrete registry that lists `"AABBCCDD"` in both
the whitelist and the blacklist: the whitelist wins. -/
theorem C6_allow_first_roundtrip_witness :
    handleRFIDScan ⟨[("AABBCCDD", "Alice")], [("AABBCCDD", "Mallory")], []⟩ "AABBCCDD" =
      ⟨⟨[("AABBCCDD", "Alice")], [("AABBCCDD", "Mallory")], []⟩, [],
        [⟨"AABBCCDD",
          getName ⟨[("AABBCCDD", "Alice")], [("AABBCCDD", "Mallory")], []⟩ "AABBCCDD" "whitelist",
          "granted", "rfid"⟩], 100, some RELAY_DEFAULT_DURATION⟩ :=
  C6_allow_first_roundtrip.1 ⟨[("AABBCCDD", "Alice")], [("AABBCCDD", "Mallory")], []⟩
    "AABBCCDD" (by decide) (by decide)

theorem disjointSets_removeFromList (r : Registry) (list uid : String)
    (h : disjointSets r) : disjointSets (removeFromList r list uid).1 := by
  unfold removeFromList removeFromWhitelist removeFromBlacklist removeFromPending
  split_ifs with hw hb hp
  · intro u
    have hu := h u
    unfold disjointAt isWhitelisted isBlacklisted isPending at hu
    show (hasKey (alRemove r.whitelist uid) u).toNat + (hasKey r.blacklist u).toNat +
      (hasKey r.pending u).toNat ≤ 1
    rw [hasKey_alRemove]
    split_ifs with h1
    · simp only [Bool.toNat_false]
      omega
    · exact hu
  · intro u
    have hu := h u
    unfold disjointAt isWhitelisted isBlacklisted isPending at hu
    show (hasKey r.whitelist u).toNat + (hasKey (alRemove r.blacklist uid) u).toNat +
      (hasKey r.pending u).toNat ≤ 1
    rw [hasKey_alRemove]
    split_ifs with h1
    · simp only [Bool.toNat_false]
      omega
    · exact hu
  · intro u
    have hu := h u
    unfold disjointAt isWhitelisted isBlacklisted isPending at hu
    show (hasKey r.whitelist u).toNat + (hasKey r.blacklist u).toNat +
      (hasKey (alRemove r.pending uid) u).toNat ≤ 1
    rw [hasKey_alRemove]
    split_ifs with h1
    · simp only [Bool.toNat_false]
      omega
    · exact hu
  · exact h

theorem disjointSets_scan (r : Registry) (uid : String) (h : disjointSets r) :
    disjointSets (handleRFIDScan r uid).registry := by
  unfold handleRFIDScan
  split_ifs with h1 h2 h3 h4
  · exact h
  · exact h
  · exact h
  · intro u
    have hu := h u
    simp only [Bool.not_eq_true] at h2 h3
    unfold isWhitelisted at h2
    unfold isBlacklisted at h3
    unfold disjointAt isWhitelisted isBlacklisted isPending at hu
    show (hasKey r.whitelist u).toNat + (hasKey r.blacklist u).toNat +
      (hasKey ((uid, "Unknown") :: alRemove r.pending uid) u).toNat ≤ 1
    rw [hasKey_cons]
    by_cases hu' : u = uid
    · subst hu'
      rw [if_pos rfl, h2, h3]
      simp
    · rw [if_neg hu', hasKey_alRemove, if_neg hu']
      exact hu
  · exact h

/-- C1 counterexample: the remote Add command does not preserve
disjointness of the three sets. Starting from a disjoint registry that
whitelists `"AABBCCDD"`, a valid `Add(blacklist, "AABBCCDD", "Bob")`
command inserts the identifier into the blacklist without removing it
from the whitelist, so afterwards the identifier is in two sets at once. -/
theorem C1_set_disjointness_cex :
    disjointSets ⟨[("AABBCCDD", "Alice")], [], []⟩ ∧
    ¬ disjointSets
        (handleAddCommand ⟨"blacklist", "AABBCCDD", some "Bob"⟩ true
          ⟨[("AABBCCDD", "Alice")], [], []⟩ [] []).registry := by
  constructor
  · intro u
    unfold disjointAt isWhitelisted isBlacklisted isPending
    by_cases hu : u = "AABBCCDD" <;> simp [hasKey, alGet, hu]
  · intro h
    exact absurd (h "AABBCCDD") (by decide)

/-- C1 (amended): of the registry-mutating operations, the pending-insert
performed on an unknown scan and the remote Delete command preserve
disjointness of the three sets, but the remote Add command (and likewise
Move and Rename, which insert through the same `addToList`) upserts into
the named set without clearing the identifier from the other sets, so it
does not preserve disjointness when the identifier already lives in a
different set. -/
theorem C1_set_disjointness :
    (∀ (r : Registry) (uid : String), disjointSets r →
      disjointSets (handleRFIDScan r uid).registry) ∧
    (∀ (cmd : DeleteCmd) (removeOk : Bool) (r : Registry) (m : Mirror)
        (errs : List CmdError), disjointSets r →
      disjointSets (handleDeleteCommand cmd removeOk r m errs).registry) := by
  constructor
  · exact disjointSets_scan
  · intro cmd removeOk r m errs h
    unfold handleDeleteCommand
    split_ifs
    · exact h
    · exact h
    · exact h
    · exact disjointSets_removeFromList r cmd.list (strToUpper cmd.uid) h

/-- Witness for C1 at concrete states: the scan of `"1234ABCD"` on the
empty registry and a whitelist delete both start from a disjoint registry
and end in one. -/
theorem C1_set_disjointness_witness :
    disjointSets (handleRFIDScan emptyRegistry "1234ABCD").registry ∧
    disjointSets
      (handleDeleteCommand ⟨"whitelist", "AABBCCDD"⟩ true
        ⟨[("AABBCCDD", "Alice")], [], []⟩ [] []).registry := by
  constructor
  · apply C1_set_disjointness.1
    intro u
    unfold disjointAt isWhitelisted isBlacklisted isPending emptyRegistry
    simp [hasKey, alGet]
  · apply C1_set_disjointness.2
    intro u
    unfold disjointAt isWhitelisted isBlacklisted isPending
    by_cases hu : u = "AABBCCDD" <;> simp [hasKey, alGet, hu]

theorem exit_first_fire (lt t0 : Nat) (h : EXIT_DEBOUNCE_MS ≤ usub t0 lt) :
    handleExitSensor ⟨false, false, lt⟩ true t0 = (⟨true, true, t0⟩, true) := by
  unfold handleExitSensor
  rw [if_neg]
  · simp
  · intro hc
    exact absurd hc.2 (not_lt.mpr h)

theorem exit_steady (t now : Nat) :
    handleExitSensor ⟨true, true, t⟩ true now = (⟨true, true, t⟩, false) := by
  unfold handleExitSensor
  simp

theorem exit_run_steady (t : Nat) (ts : List Nat) :
    pollExitRun ⟨true, true, t⟩ (ts.map fun x => (true, x)) = (⟨true, true, t⟩, [], []) := by
  induction ts with
  | nil => rfl
  | cons a as ih => simp [pollExitRun, exit_steady, ih]

/-- C8: holding the exit-request signal continuously high produces exactly
one trigger over the whole run — one relay actuation request for the
default duration and one audit record with identifier `"EXIT_SENSOR"` —
not one per polling cycle; and the trigger latch clears only on a poll
whose signal reads low after more than the 500 ms debounce interval has
elapsed since the last accepted trigger. -/
theorem C8_exit_single_trigger :
    (∀ (lt t0 : Nat) (ts : List Nat),
      EXIT_DEBOUNCE_MS ≤ usub t0 lt →
      pollExitRun ⟨false, false, lt⟩ ((true, t0) :: ts.map fun t => (true, t)) =
        (⟨true, true, t0⟩, [RELAY_DEFAULT_DURATION], [exitLogEntry])) ∧
    (∀ (s : ExitState) (cur : Bool) (now : Nat),
      s.exitSensorTriggered = true →
      (handleExitSensor s cur now).1.exitSensorTriggered = false →
      cur = false ∧ EXIT_DEBOUNCE_MS < usub now s.lastExitTriggerTime) := by
  constructor
  · intro lt t0 ts h
    simp [pollExitRun, exit_first_fire lt t0 h, exit_run_steady]
  · intro s cur now htrig hclear
    unfold handleExitSensor at hclear
    split_ifs at hclear with hc hf hcl
    · have hfls : s.exitSensorTriggered = false := hclear
      rw [htrig] at hfls
      exact absurd hfls (by simp)
    · simp only [Bool.and_eq_true, Bool.not_eq_true', decide_eq_true_eq] at hcl
      exact ⟨hcl.1.1, hcl.2⟩
    · have hfls : s.exitSensorTriggered = false := hclear
      rw [htrig] at hfls
      exact absurd hfls (by simp)

/-- Witness for C8: four consecutive high polls starting at 1000 ms fire
once; a low poll at 2000 ms clears a latch triggered at 1000 ms. -/
theorem C8_exit_single_trigger_witness :
    pollExitRun ⟨false, false, 0⟩
        ((true, 1000) :: [1010, 1020, 1030].map fun t => (true, t)) =
      (⟨true, true, 1000⟩, [RELAY_DEFAULT_DURATION], [exitLogEntry]) ∧
    (false = false ∧ EXIT_DEBOUNCE_MS < usub 2000 (⟨true, true, 1000⟩ : ExitState).lastExitTriggerTime) :=
  ⟨C8_exit_single_trigger.1 0 1000 [1010, 1020, 1030] (by decide),
    C8_exit_single_trigger.2 ⟨true, true, 1000⟩ false 2000 rfl (by decide)⟩

end Emlock
